import Mathlib

/-!
Verification of the ThreatExchange `te-tag-query` client (`TE.py`).

The development shallowly embeds the `Net` class of
`api-reference-examples/python/te-tag-query/TE.py`:

* Python dicts of JSON-ish values become association lists of
  `String × JValue` with Python's `dict` semantics (`d[k] = v` replaces in
  place or appends, `del` removes the key, `d.update(src)` folds
  assignments, `d.get(k)` yields `None` both when the key is absent and
  when the stored value is JSON null).
* Functions that mutate their dict argument in place return the final
  state of that argument alongside their result, so the in-place effects
  of the source are explicit values here.
* Network I/O is a parameter: a GET server is a function from attempt
  number to outcome, a POST outcome is a value, and the paginated tag
  query consumes the chain of page responses as a list.
-/

namespace TE

/-- JSON-ish values as stored in the Python dicts of `TE.py`. -/
inductive JValue where
  | null
  | str (s : String)
  | num (n : Int)
  | arr (xs : List JValue)
  | obj (kvs : List (String × JValue))

/-- A Python dict mapping field names to values, as an ordered
association list (Python dicts preserve insertion order). -/
abbrev Dict := List (String × JValue)

namespace Dict

/-- Raw key lookup: the value stored at `k`, if the key is present. -/
def plookup : Dict → String → Option JValue
  | [], _ => none
  | (k1, v) :: rest, k => if k1 = k then some v else plookup rest k

/-- Python's `d.get(k)` combined with an `is None` test: yields `none`
both when the key is absent and when the stored value is JSON null,
mirroring that Python's `None` plays both roles. -/
def pyGet (d : Dict) (k : String) : Option JValue :=
  match d.plookup k with
  | some JValue.null => none
  | some v => some v
  | none => none

/-- Python's `d[k] = v`: replace the value in place if the key exists
(keeping its position), otherwise append the new binding. -/
def insert : Dict → String → JValue → Dict
  | [], k, v => [(k, v)]
  | (k1, v1) :: rest, k, v =>
    if k1 = k then (k1, v) :: rest else (k1, v1) :: insert rest k v

/-- Python's `del d[k]`: remove the binding for `k` (keys are unique in a
Python dict, so removing the first occurrence is the faithful model). -/
def erase : Dict → String → Dict
  | [], _ => []
  | (k1, v1) :: rest, k => if k1 = k then rest else (k1, v1) :: erase rest k

/-- Python's `d.update(src)`: assign every binding of `src` into `d`, in
order. -/
def update (d src : Dict) : Dict :=
  src.foldl (fun acc kv => acc.insert kv.1 kv.2) d

/-- The keys of the dict, in order. -/
def keys (d : Dict) : List String := d.map Prod.fst

end Dict

namespace Net

/-- `Net.THREAT_DESCRIPTOR`. -/
def THREAT_DESCRIPTOR : String := "THREAT_DESCRIPTOR"

/-- The recognized post-parameter names: the keys of
`Net.POST_PARAM_NAMES` in `TE.py` (a dict mapping each name to itself,
so `POST_PARAM_NAMES.get(key) != None` is membership in this list). -/
def POST_PARAM_NAMES : List String :=
  ["indicator", "type", "descriptor_id", "description", "share_level",
   "status", "privacy_type", "privacy_members", "tags", "add_tags",
   "remove_tags", "confidence", "precision", "review_status", "severity",
   "expired_on", "first_active", "last_active", "related_ids_for_upload",
   "related_triples_for_upload_as_json", "reactions",
   "reactions_to_remove"]

/-- The required fields checked by `validatePostPararmsForSubmit`, in the
source's order. -/
def submitRequiredFields : List String :=
  ["indicator", "type", "description", "share_level", "status",
   "privacy_type"]

/-- `Net.validatePostPararmsForSubmit`.  The second component is the
state of the `postParams` argument when the function returns; the
function only reads the dict, which the returned state makes explicit. -/
def validatePostPararmsForSubmit (postParams : Dict) :
    Option String × Dict :=
  if (postParams.pyGet "descriptor_id").isSome then
    (some "descriptor_id must not be specified for submit.", postParams)
  else
    let missingFields := submitRequiredFields.map fun fieldName =>
      if (postParams.pyGet fieldName).isNone then some fieldName else none
    let missingFields := missingFields.filterMap id
    match missingFields with
    | [] => (none, postParams)
    | [f] => (some ("Missing field " ++ f), postParams)
    | fs =>
      (some ("Missing fields " ++ String.intercalate "," fs), postParams)

/-- `Net.validatePostPararmsForUpdate`, with its unusual nesting of the
indicator and type checks preserved verbatim: the `descriptor_id`
presence check comes first; then, when `indicator` is absent, a present
`type` is the error, and when `indicator` is present the indicator error
is returned regardless of `type`. -/
def validatePostPararmsForUpdate (postParams : Dict) :
    Option String × Dict :=
  if (postParams.pyGet "descriptor_id").isNone then
    (some "Descriptor ID must be specified for update.", postParams)
  else if (postParams.pyGet "indicator").isNone then
    (if (postParams.pyGet "type").isSome then
      (some "Type must not be specified for update.", postParams)
     else (none, postParams))
  else
    (some "Indicator must not be specified for update.", postParams)

/-- `Net.validatePostPararmsForCopy`: `descriptor_id`, `privacy_type`,
`privacy_members` checked in that order, first failure wins. -/
def validatePostPararmsForCopy (postParams : Dict) :
    Option String × Dict :=
  if (postParams.pyGet "descriptor_id").isNone then
    (some "Source-descriptor ID must be specified for copy.", postParams)
  else if (postParams.pyGet "privacy_type").isNone then
    (some "Privacy type must be specified for copy.", postParams)
  else if (postParams.pyGet "privacy_members").isNone then
    (some "Privacy members must be specified for copy.", postParams)
  else
    (none, postParams)

/-- The `tags` wrapper shape: `tags["data"]` is a list of tag records,
each with a `"text"` entry.  Yields `none` where the Python subscripting
`tags["data"]` / `tag["text"]` would raise on a malformed response. -/
def tagTextsOfWrapper (w : JValue) : Option (List String) :=
  match w with
  | JValue.obj kvs =>
    match Dict.plookup kvs "data" with
    | some (JValue.arr xs) =>
      xs.mapM fun t =>
        match t with
        | JValue.obj tkvs =>
          match Dict.plookup tkvs "text" with
          | some (JValue.str s) => some s
          | _ => none
        | _ => none
    | _ => none
  | _ => none

/-- The raw tag texts of a descriptor: `tags = descriptor.get("tags",
None)` then `[] if tags is None else tags["data"]`, with each `tag["text"]`
extracted.  A stored JSON null and an absent key both give the empty
list; `none` models a Python exception on a malformed wrapper. -/
def rawTagTexts (descriptor : Dict) : Option (List String) :=
  match descriptor.plookup "tags" with
  | none => some []
  | some JValue.null => some []
  | some w => tagTextsOfWrapper w

/-- `sorted(...)` / `list.sort()` on a list of strings: Python's stable
ascending sort by default string ordering.  Every stable sort agrees, so
insertion sort is an exact model. -/
def sortStrings (l : List String) : List String :=
  l.insertionSort (· ≤ ·)

/-- The tags-normalization step shared by `getInfoForIDs` (lines
277-281) and `doPowerSearch` (lines 339-343): replace the `tags` field
by the sorted list of tag texts. -/
def normalizeTags (descriptor : Dict) : Option Dict :=
  (rawTagTexts descriptor).map fun texts =>
    descriptor.insert "tags" (JValue.arr ((sortStrings texts).map JValue.str))

/-- The description-normalization step shared by `getInfoForIDs` (lines
283-284) and `doPowerSearch` (lines 345-346): if `description` is null
or absent, set it to the empty string. -/
def normalizeDescription (descriptor : Dict) : Dict :=
  if (descriptor.pyGet "description").isNone then
    descriptor.insert "description" (JValue.str "")
  else
    descriptor

/-- The per-descriptor body of `Net.getInfoForIDs` for a single fetched
raw descriptor, with the default `includeIndicatorInOutput=True` (the
setting `copyThreatDescriptor` uses): normalize tags, then description.
`none` models the Python exception on a malformed tags wrapper. -/
def getInfoForIDsOne (raw : Dict) : Option Dict :=
  (normalizeTags raw).map normalizeDescription

/-- Outcome of a POST attempted by `_postThreatDescriptor`: either a
successful response body, or an HTTP error whose body is read and
JSON-parsed. -/
inductive PostOutcome where
  | success (body : JValue)
  | httpError (errBody : JValue)

/-- The `(validationError, transportError, responseBody)` triple returned
by the mutation entry points.  The transport error is represented by the
parsed body it carries. -/
structure MutationResult where
  validationError : Option String
  transportError : Option JValue
  responseBody : Option JValue

/-- `Net._postThreatDescriptor`, with the network as a parameter and the
number of POST requests issued returned alongside the result.  A dry run
short-circuits with an empty-string body and no request; otherwise one
POST happens and either arm populates the body. -/
def _postThreatDescriptor (net : PostOutcome) (dryRun : Bool) :
    MutationResult × Nat :=
  if dryRun then (⟨none, none, some (JValue.str "")⟩, 0)
  else
    match net with
    | PostOutcome.success body => (⟨none, none, some body⟩, 1)
    | PostOutcome.httpError errBody =>
      (⟨none, some errBody, some errBody⟩, 1)

/-- `Net.submitThreatDescriptor`: validate for submit; on failure return
`[errorMessage, None, None]` with no network call, else POST. -/
def submitThreatDescriptor (net : PostOutcome) (postParams : Dict)
    (dryRun : Bool) : MutationResult × Nat :=
  match (validatePostPararmsForSubmit postParams).1 with
  | some errorMessage => (⟨some errorMessage, none, none⟩, 0)
  | none => _postThreatDescriptor net dryRun

/-- `Net.updateThreatDescriptor`: validate for update; on failure return
`[errorMessage, None, None]` with no network call, else POST. -/
def updateThreatDescriptor (net : PostOutcome) (postParams : Dict)
    (dryRun : Bool) : MutationResult × Nat :=
  match (validatePostPararmsForUpdate postParams).1 with
  | some errorMessage => (⟨some errorMessage, none, none⟩, 0)
  | none => _postThreatDescriptor net dryRun

/-- Observable outcome of `Net.copyThreatDescriptor` up to its final
delegation to `submitThreatDescriptor`: the validation error if any, the
post-params dict handed to `submitThreatDescriptor` (none when the call
stops before that point), and the final state of the caller-supplied
`postParams` object, whose `descriptor_id` entry the source deletes in
place. -/
structure CopyOutcome where
  validationError : Option String
  payloadToSubmit : Option Dict
  callerMap : Dict

/-- `Net.copyThreatDescriptor` up to the delegation to
`submitThreatDescriptor`, with the fetched raw source descriptor (the
server's response for the source id) as a parameter.  Mirrors the
source: validate; delete `descriptor_id` from `postParams` in place;
fetch and normalize the source descriptor; copy it; rename
`raw_indicator` to `indicator`; drop a null `tags`; drop `reactions`;
overwrite with the caller's fields via `newDescriptor.update(postParams)`;
keep only recognized post-parameter names. -/
def copyThreatDescriptor (rawSource : Dict) (postParams : Dict) :
    CopyOutcome :=
  match (validatePostPararmsForCopy postParams).1 with
  | some errorMessage => ⟨some errorMessage, none, postParams⟩
  | none =>
    let postParams := postParams.erase "descriptor_id"
    match getInfoForIDsOne rawSource with
    | none => ⟨none, none, postParams⟩
    | some sourceDescriptor =>
      match sourceDescriptor.plookup "raw_indicator" with
      | none => ⟨none, none, postParams⟩
      | some rawIndicator =>
        let newDescriptor := sourceDescriptor
        let newDescriptor := newDescriptor.insert "indicator" rawIndicator
        let newDescriptor := newDescriptor.erase "raw_indicator"
        let newDescriptor :=
          match newDescriptor.plookup "tags" with
          | some JValue.null => newDescriptor.erase "tags"
          | _ => newDescriptor
        let newDescriptor :=
          if (newDescriptor.plookup "reactions").isSome then
            newDescriptor.erase "reactions"
          else newDescriptor
        let newDescriptor := newDescriptor.update postParams
        let payload :=
          newDescriptor.filter fun kv => POST_PARAM_NAMES.contains kv.1
        ⟨none, some payload, postParams⟩

/-- One item of a `tagged_objects` page, in the documented response
shape: an id, a declared type, and a human-readable name.  The name is
read (or deleted) by the loop but never contributes to the id list
handed to the callback. -/
structure TaggedObject where
  id : String
  itemType : String
  name : String

/-- One `tagged_objects` response page: the `data` array plus whether a
`paging.next` continuation URL is present. -/
structure TagQueryPage where
  data : List TaggedObject
  hasNext : Bool

/-- The id-collecting loop body of `processDescriptorIDsByTagID`
(lines 211-223): `ids = []`, then for each item skip it unless its type
is `THREAT_DESCRIPTOR`, else append its id. -/
def pageIDs : List TaggedObject → List String
  | [] => []
  | item :: rest =>
    if item.itemType = THREAT_DESCRIPTOR then item.id :: pageIDs rest
    else pageIDs rest

/-- `Net.processDescriptorIDsByTagID`, with the server's chain of page
responses as a list consumed in order.  Returns the trace of arguments
passed to `idProcessorCallback`: each iteration fetches the next
response, determines whether `paging.next` is present, filters and
collects the ids, invokes the callback once, and loops only when a next
URL was present. -/
def processDescriptorIDsByTagID : List TagQueryPage → List (List String)
  | [] => []
  | page :: rest =>
    pageIDs page.data ::
      (if page.hasNext then processDescriptorIDsByTagID rest else [])

/-- Outcome of one `tryGET` attempt: a decoded JSON body, or an
`HTTPError` carrying its status code. -/
abbrev GetAttempt := Except Nat JValue

/-- The retry loop of `Net.getJSONFromURL` (lines 88-100), with the
server as a function from 0-based attempt number to outcome.  Returns
the final outcome together with the total number of requests issued.
Each iteration increments `numTries`, issues the request, returns on
success, raises immediately when the status is outside `[500, 600)`,
raises after the fifth attempt, and otherwise retries. -/
def getJSONFromURLLoop (server : Nat → GetAttempt) (numTries : Nat) :
    GetAttempt × Nat :=
  let n := numTries + 1
  match server numTries with
  | Except.ok v => (Except.ok v, n)
  | Except.error code =>
    if code < 500 ∨ 600 ≤ code then (Except.error code, n)
    else if 4 < n then (Except.error code, n)
    else getJSONFromURLLoop server n
termination_by 5 - numTries
decreasing_by omega

/-- `Net.getJSONFromURL`: the retry loop started with `numTries = 0`. -/
def getJSONFromURL (server : Nat → GetAttempt) : GetAttempt × Nat :=
  getJSONFromURLLoop server 0

/-! ### Time-expression parsing (`parseTimeStringToEpochSeconds`)

The wall clock enters in two places and is abstracted into parameters:
`localTs` gives the epoch value `datetime.timestamp()` assigns to a
naive (offset-free) parsed datetime under the process's local timezone,
and `nowTs` is the epoch value of `datetime.datetime.now()` at call
time, with the relative forms computing `nowTs - N * unitSeconds`. -/

/-- ASCII whitespace stripped by Python's `int(str)`. -/
def pyWS (c : Char) : Bool :=
  c = ' ' || c = '\t' || c = '\n' || c = '\r' || c = '\x0b' || c = '\x0c'

/-- Is `c` an ASCII decimal digit. -/
def isDigitChar (c : Char) : Bool := '0' ≤ c && c ≤ '9'

/-- Numeric value of an ASCII digit. -/
def digitVal (c : Char) : Nat := c.toNat - '0'.toNat

/-- Digit run with optional single underscores between digits, as
Python's integer literals allow; accumulates the base-10 value.  The
first character consumed by the caller is a digit, and each underscore
must be followed by a digit. -/
def parseUnderscoredDigits : List Char → Nat → Option Nat
  | [], acc => some acc
  | '_' :: c :: rest, acc =>
    if isDigitChar c then parseUnderscoredDigits rest (acc * 10 + digitVal c)
    else none
  | c :: rest, acc =>
    if isDigitChar c then parseUnderscoredDigits rest (acc * 10 + digitVal c)
    else none

/-- A full digit group: nonempty, starting with a digit. -/
def pyParseDigits (cs : List Char) : Option Nat :=
  match cs with
  | c :: _ => if isDigitChar c then parseUnderscoredDigits cs 0 else none
  | [] => none

/-- Model of Python's `int(str)` on ASCII input: strip surrounding
whitespace, allow one optional sign, then base-10 digits with optional
single underscores between them. -/
def pyIntParse (s : String) : Option Int :=
  let cs := s.toList.dropWhile pyWS
  let cs := (cs.reverse.dropWhile pyWS).reverse
  match cs with
  | '+' :: rest => (pyParseDigits rest).map fun n => (n : Int)
  | '-' :: rest => (pyParseDigits rest).map fun n => -(n : Int)
  | rest => (pyParseDigits rest).map fun n => (n : Int)

/-- `Net._parseIntStringToEpochSeconds`: `int(mixedString)` or null. -/
def _parseIntStringToEpochSeconds (mixedString : String) : Option Int :=
  pyIntParse mixedString

/-- The datetime fields extracted by `strptime` for the five formats of
`Net.DATETIME_FORMATS` (all of which bind year, month, day, hour,
minute, second; only `%z` binds an offset). -/
structure DTFields where
  year : Nat
  month : Nat
  day : Nat
  hour : Nat
  minute : Nat
  second : Nat
  tzOffset : Option Int

/-- One directive or literal of a `strptime` format string. -/
inductive FmtItem where
  | lit (c : Char)
  | Y | m | d | H | M | S | z

/-- `Net.DATETIME_FORMATS`, in the source's priority order. -/
def DATETIME_FORMATS : List (List FmtItem) :=
  [ [FmtItem.Y, FmtItem.lit '-', FmtItem.m, FmtItem.lit '-', FmtItem.d,
     FmtItem.lit 'T', FmtItem.H, FmtItem.lit ':', FmtItem.M,
     FmtItem.lit ':', FmtItem.S, FmtItem.z],
    [FmtItem.Y, FmtItem.lit '-', FmtItem.m, FmtItem.lit '-', FmtItem.d,
     FmtItem.lit ' ', FmtItem.H, FmtItem.lit ':', FmtItem.M,
     FmtItem.lit ':', FmtItem.S],
    [FmtItem.Y, FmtItem.lit '/', FmtItem.m, FmtItem.lit '/', FmtItem.d,
     FmtItem.lit ' ', FmtItem.H, FmtItem.lit ':', FmtItem.M,
     FmtItem.lit ':', FmtItem.S],
    [FmtItem.Y, FmtItem.lit '-', FmtItem.m, FmtItem.lit '-', FmtItem.d,
     FmtItem.lit 'T', FmtItem.H, FmtItem.lit ':', FmtItem.M,
     FmtItem.lit ':', FmtItem.S],
    [FmtItem.Y, FmtItem.lit '-', FmtItem.m, FmtItem.lit '-', FmtItem.d,
     FmtItem.lit 'T', FmtItem.H, FmtItem.lit ':', FmtItem.M,
     FmtItem.lit ':', FmtItem.S, FmtItem.lit 'Z'] ]

/-- A literal format character, matched case-insensitively as
`_strptime` compiles its regex with `IGNORECASE`. -/
def matchLit (c : Char) : List Char → Option (List Char)
  | x :: rest => if x.toLower = c.toLower then some rest else none
  | [] => none

/-- `%Y`: exactly four digits. -/
def matchY : List Char → Option (Nat × List Char)
  | a :: b :: c :: d :: rest =>
    if isDigitChar a && isDigitChar b && isDigitChar c && isDigitChar d then
      some (((digitVal a * 10 + digitVal b) * 10 + digitVal c) * 10 +
        digitVal d, rest)
    else none
  | _ => none

/-- A one-or-two-digit field whose regex alternation prefers the
two-digit reading when `validTwo` accepts it and otherwise falls back to
one digit accepted by `validOne` (in the five formats every such field
is followed by a non-digit, so no further backtracking can occur). -/
def matchNum (validTwo validOne : Nat → Bool) :
    List Char → Option (Nat × List Char)
  | a :: b :: rest =>
    if isDigitChar a && isDigitChar b &&
        validTwo (digitVal a * 10 + digitVal b) then
      some (digitVal a * 10 + digitVal b, rest)
    else if isDigitChar a && validOne (digitVal a) then
      some (digitVal a, b :: rest)
    else none
  | [a] =>
    if isDigitChar a && validOne (digitVal a) then some (digitVal a, [])
    else none
  | [] => none

/-- `%m` — `1[0-2]|0[1-9]|[1-9]`. -/
def matchMonth : List Char → Option (Nat × List Char) :=
  matchNum (fun v => 1 ≤ v && v ≤ 12) (fun v => 1 ≤ v && v ≤ 9)

/-- `%d` — `3[01]|[12]\d|0[1-9]|[1-9]`. -/
def matchDay : List Char → Option (Nat × List Char) :=
  matchNum (fun v => 1 ≤ v && v ≤ 31) (fun v => 1 ≤ v && v ≤ 9)

/-- `%H` — `2[0-3]|[0-1]\d|\d`. -/
def matchHour : List Char → Option (Nat × List Char) :=
  matchNum (fun v => v ≤ 23) (fun _ => true)

/-- `%M` — `[0-5]\d|\d`. -/
def matchMinute : List Char → Option (Nat × List Char) :=
  matchNum (fun v => v ≤ 59) (fun _ => true)

/-- `%S` — `6[0-1]|[0-5]\d|\d` (leap seconds pass the regex; the
`datetime` constructor rejects them later). -/
def matchSecond : List Char → Option (Nat × List Char) :=
  matchNum (fun v => v ≤ 61) (fun _ => true)

/-- Optional `:SS(.ffffff)?` tail of a `%z` offset; fractions are
dropped since `timestamp()` is truncated to `int` by the caller. -/
def matchZSecondsTail (cs : List Char) : Nat × List Char :=
  match cs with
  | ':' :: a :: b :: rest =>
    if isDigitChar a && digitVal a ≤ 5 && isDigitChar b then
      match rest with
      | '.' :: c :: rest2 =>
        if isDigitChar c then
          (digitVal a * 10 + digitVal b, rest2.dropWhile isDigitChar)
        else (digitVal a * 10 + digitVal b, rest)
      | _ => (digitVal a * 10 + digitVal b, rest)
    else (0, cs)
  | a :: b :: rest =>
    if isDigitChar a && digitVal a ≤ 5 && isDigitChar b then
      match rest with
      | '.' :: c :: rest2 =>
        if isDigitChar c then
          (digitVal a * 10 + digitVal b, rest2.dropWhile isDigitChar)
        else (digitVal a * 10 + digitVal b, rest)
      | _ => (digitVal a * 10 + digitVal b, rest)
    else (0, cs)
  | _ => (0, cs)

/-- `%z` — `[+-]\d\d:?[0-5]\d(:?[0-5]\d(\.\d{1,6})?)?|Z` (the `Z`
alternative is case-sensitive even under `IGNORECASE`).  Yields the
offset in seconds east of UTC. -/
def matchZ : List Char → Option (Int × List Char)
  | 'Z' :: rest => some (0, rest)
  | s :: h1 :: h2 :: rest =>
    if (s = '+' || s = '-') && isDigitChar h1 && isDigitChar h2 then
      let hours := digitVal h1 * 10 + digitVal h2
      let rest := match rest with
        | ':' :: more => more
        | more => more
      match rest with
      | m1 :: m2 :: rest2 =>
        if isDigitChar m1 && digitVal m1 ≤ 5 && isDigitChar m2 then
          let minutes := digitVal m1 * 10 + digitVal m2
          let (seconds, rest3) := matchZSecondsTail rest2
          let total : Int := hours * 3600 + minutes * 60 + seconds
          some (if s = '-' then -total else total, rest3)
        else none
      | _ => none
    else none
  | _ => none

/-- Run a whole format against the input; the regex `_strptime` builds
must match the entire string. -/
def matchFormat : List FmtItem → List Char → DTFields → Option DTFields
  | [], [], f => some f
  | [], _ :: _, _ => none
  | item :: items, cs, f =>
    match item with
    | FmtItem.lit c =>
      (matchLit c cs).bind fun rest => matchFormat items rest f
    | FmtItem.Y =>
      (matchY cs).bind fun p => matchFormat items p.2 {f with year := p.1}
    | FmtItem.m =>
      (matchMonth cs).bind fun p =>
        matchFormat items p.2 {f with month := p.1}
    | FmtItem.d =>
      (matchDay cs).bind fun p => matchFormat items p.2 {f with day := p.1}
    | FmtItem.H =>
      (matchHour cs).bind fun p =>
        matchFormat items p.2 {f with hour := p.1}
    | FmtItem.M =>
      (matchMinute cs).bind fun p =>
        matchFormat items p.2 {f with minute := p.1}
    | FmtItem.S =>
      (matchSecond cs).bind fun p =>
        matchFormat items p.2 {f with second := p.1}
    | FmtItem.z =>
      (matchZ cs).bind fun p =>
        matchFormat items p.2 {f with tzOffset := some p.1}

/-- Gregorian leap year. -/
def isLeapYear (y : Nat) : Bool :=
  (y % 4 = 0 && y % 100 ≠ 0) || y % 400 = 0

/-- Days in a month. -/
def daysInMonth (y m : Nat) : Nat :=
  if m = 2 then (if isLeapYear y then 29 else 28)
  else if m = 4 || m = 6 || m = 9 || m = 11 then 30
  else 31

/-- The checks the `datetime` constructor performs on strptime's output
(raising `ValueError`, which `_parseDateTimeStringSingleFormat` turns
into a no-match): field ranges, month length, and a bounded timezone
offset. -/
def validFields (f : DTFields) : Bool :=
  1 ≤ f.year && f.year ≤ 9999 && 1 ≤ f.month && f.month ≤ 12 &&
  1 ≤ f.day && f.day ≤ daysInMonth f.year f.month && f.hour ≤ 23 &&
  f.minute ≤ 59 && f.second ≤ 59 &&
  (match f.tzOffset with
   | some off => off.natAbs < 86400
   | none => true)

/-- Days from 1970-01-01 to the given civil date (year ≥ 1), by the
standard era decomposition. -/
def daysFromCivil (y m d : Nat) : Int :=
  let y' := if m ≤ 2 then y - 1 else y
  let era := y' / 400
  let yoe := y' % 400
  let mp := if m > 2 then m - 3 else m + 9
  let doy := (153 * mp + 2) / 5 + d - 1
  let doe := yoe * 365 + yoe / 4 - yoe / 100 + doy
  (era * 146097 + doe : Int) - 719468

/-- Epoch seconds of the fields read as a UTC civil time. -/
def utcEpochOfFields (f : DTFields) : Int :=
  daysFromCivil f.year f.month f.day * 86400 +
    (f.hour * 3600 + f.minute * 60 + f.second : Nat)

/-- `int(datetime.timestamp())` of the parsed fields: offset-aware
datetimes convert deterministically; naive ones go through the
local-timezone parameter. -/
def tsOfFields (localTs : DTFields → Int) (f : DTFields) : Int :=
  match f.tzOffset with
  | some off => utcEpochOfFields f - off
  | none => localTs f

/-- `Net._parseDateTimeStringSingleFormat`: strptime with one format,
null on `ValueError`. -/
def _parseDateTimeStringSingleFormat (localTs : DTFields → Int)
    (mixedString : String) (formatString : List FmtItem) : Option Int :=
  match matchFormat formatString mixedString.toList
      ⟨1900, 1, 1, 0, 0, 0, none⟩ with
  | none => none
  | some f => if validFields f then some (tsOfFields localTs f) else none

/-- The format loop of `Net._parseDateTimeStringToEpochSeconds`: first
matching format wins. -/
def tryDateTimeFormats (localTs : DTFields → Int) (mixedString : String) :
    List (List FmtItem) → Option Int
  | [] => none
  | formatString :: rest =>
    match _parseDateTimeStringSingleFormat localTs mixedString
        formatString with
    | some retval => some retval
    | none => tryDateTimeFormats localTs mixedString rest

/-- `Net._parseDateTimeStringToEpochSeconds`. -/
def _parseDateTimeStringToEpochSeconds (localTs : DTFields → Int)
    (mixedString : String) : Option Int :=
  tryDateTimeFormats localTs mixedString DATETIME_FORMATS

/-- Base-10 value of a digit run. -/
def natOfDigits (cs : List Char) : Nat :=
  cs.foldl (fun acc c => acc * 10 + digitVal c) 0

/-- One relative pattern `^-([0-9]+)<unit>s?$`: a literal minus sign,
one or more digits, the unit word with an optional plural `s`, then the
end of the string (an un-multiline `$` also matches just before a single
trailing newline). -/
def matchRelUnit (unit : List Char) (cs : List Char) : Option Nat :=
  match cs with
  | '-' :: rest =>
    let digits := rest.takeWhile isDigitChar
    let after := rest.dropWhile isDigitChar
    if digits.isEmpty then none
    else if after = unit || after = unit ++ ['s'] ||
        after = unit ++ ['\n'] || after = unit ++ ['s', '\n'] then
      some (natOfDigits digits)
    else none
  | _ => none

/-- `Net._parseRelativeStringToEpochSeconds`: try minutes, hours, days,
then weeks; each resolves to now minus the requested span. -/
def _parseRelativeStringToEpochSeconds (nowTs : Int) (mixedString : String) :
    Option Int :=
  let cs := mixedString.toList
  match matchRelUnit "minute".toList cs with
  | some count => some (nowTs - count * 60)
  | none =>
  match matchRelUnit "hour".toList cs with
  | some count => some (nowTs - count * 3600)
  | none =>
  match matchRelUnit "day".toList cs with
  | some count => some (nowTs - count * 86400)
  | none =>
  match matchRelUnit "week".toList cs with
  | some count => some (nowTs - count * 604800)
  | none => none

/-- `Net.parseTimeStringToEpochSeconds`: integer first, then the five
datetime formats, then the relative forms; null when nothing matches. -/
def parseTimeStringToEpochSeconds (localTs : DTFields → Int) (nowTs : Int)
    (mixedString : String) : Option Int :=
  match _parseIntStringToEpochSeconds mixedString with
  | some retval => some retval
  | none =>
  match _parseDateTimeStringToEpochSeconds localTs mixedString with
  | some retval => some retval
  | none => _parseRelativeStringToEpochSeconds nowTs mixedString

end Net

/-! ### Dictionary lemmas -/

theorem Dict.plookup_insert_self (d : Dict) (k : String) (v : JValue) :
    (d.insert k v).plookup k = some v := by
  induction d with
  | nil => simp [Dict.insert, Dict.plookup]
  | cons kv rest ih =>
    by_cases h : kv.1 = k
    · simp [Dict.insert, Dict.plookup, h]
    · simp [Dict.insert, Dict.plookup, h, ih]

theorem Dict.pyGet_insert_str (d : Dict) (k : String) (s : String) :
    (d.insert k (JValue.str s)).pyGet k = some (JValue.str s) := by
  simp [Dict.pyGet, Dict.plookup_insert_self]

theorem Dict.plookup_eq_none_of_not_mem_keys (d : Dict) (k : String)
    (h : k ∉ d.keys) : d.plookup k = none := by
  induction d with
  | nil => rfl
  | cons kv rest ih =>
    simp only [Dict.keys, List.map_cons, List.mem_cons] at h
    push_neg at h
    have h1 : ¬kv.1 = k := fun he => h.1 he.symm
    simp [Dict.plookup, h1, ih (by simpa [Dict.keys] using h.2)]

theorem Dict.plookup_erase_of_nodup (d : Dict) (k : String)
    (h : d.keys.Nodup) : (d.erase k).plookup k = none := by
  induction d with
  | nil => rfl
  | cons kv rest ih =>
    simp only [Dict.keys, List.map_cons, List.nodup_cons] at h
    by_cases hk : kv.1 = k
    · subst hk
      simpa [Dict.erase] using
        Dict.plookup_eq_none_of_not_mem_keys rest kv.1 h.1
    · simpa [Dict.erase, Dict.plookup, hk] using ih h.2

/-! ### Validator facts -/

namespace Net

/-- The validators only read their argument: each returned dict state
equals the input. -/
theorem validateSubmit_preserves (p : Dict) :
    (validatePostPararmsForSubmit p).2 = p := by
  unfold validatePostPararmsForSubmit
  split
  · rfl
  · dsimp only
    split <;> rfl

/-- `validatePostPararmsForUpdate` leaves its argument untouched. -/
theorem validateUpdate_preserves (p : Dict) :
    (validatePostPararmsForUpdate p).2 = p := by
  unfold validatePostPararmsForUpdate
  split
  · rfl
  · split
    · split <;> rfl
    · rfl

/-- `validatePostPararmsForCopy` leaves its argument untouched. -/
theorem validateCopy_preserves (p : Dict) :
    (validatePostPararmsForCopy p).2 = p := by
  unfold validatePostPararmsForCopy
  split
  · rfl
  · split
    · rfl
    · split <;> rfl

/-- Spec-side description of the submit validator's missing-field
message, following the spec's words ("fails listing every one of {…}
that is missing, joined into one message; single-field and multi-field
phrasing differ in wording only"), for comparison with the source
computation. -/
def specSubmitMissingMessage : List String → Option String
  | [] => none
  | [f] => some ("Missing field " ++ f)
  | fs => some ("Missing fields " ++ String.intercalate "," fs)

theorem specSubmitMissingMessage_eq_none (l : List String) :
    specSubmitMissingMessage l = none ↔ l = [] := by
  rcases l with _ | ⟨f, _ | ⟨g, t⟩⟩ <;> simp [specSubmitMissingMessage]

theorem submit_missing_eq_filter (p : Dict) (fs : List String) :
    (fs.map fun fieldName =>
        if (p.pyGet fieldName).isNone then some fieldName else none).filterMap
        id
      = fs.filter fun fieldName => (p.pyGet fieldName).isNone := by
  induction fs with
  | nil => rfl
  | cons f rest ih =>
    by_cases h : (p.pyGet f).isNone <;> simp [h, ih]

theorem validateSubmit_eq_missing_message (p : Dict)
    (hd : p.pyGet "descriptor_id" = none) :
    (validatePostPararmsForSubmit p).1 =
      specSubmitMissingMessage
        (submitRequiredFields.filter fun f => (p.pyGet f).isNone) := by
  unfold validatePostPararmsForSubmit
  rw [if_neg (by simp [hd])]
  dsimp only
  rw [submit_missing_eq_filter]
  rcases (submitRequiredFields.filter fun f => (p.pyGet f).isNone) with
      _ | ⟨f, _ | ⟨g, t⟩⟩ <;> rfl

end Net

/-! ### Claim C2 — the update validator -/

/-- C2: `validatePostPararmsForUpdate p` returns null iff `p` has a
non-null `descriptor_id` and neither a non-null `indicator` nor a
non-null `type`; `validate(update, {})` returns the error naming the
descriptor id as required; and with `descriptor_id` present, a present
`indicator` yields the indicator error regardless of `type`. -/
theorem C2_validate_update (p : Dict) :
    ((Net.validatePostPararmsForUpdate p).1 = none ↔
      (p.pyGet "descriptor_id").isSome = true ∧
      p.pyGet "indicator" = none ∧ p.pyGet "type" = none)
    ∧ (Net.validatePostPararmsForUpdate ([] : Dict)).1 =
        some "Descriptor ID must be specified for update."
    ∧ ((p.pyGet "descriptor_id").isSome = true →
       (p.pyGet "indicator").isSome = true →
       (Net.validatePostPararmsForUpdate p).1 =
         some "Indicator must not be specified for update.") := by
  refine ⟨?_, rfl, ?_⟩
  · unfold Net.validatePostPararmsForUpdate
    rcases hd : p.pyGet "descriptor_id" with _ | vd <;>
      rcases hi : p.pyGet "indicator" with _ | vi <;>
        rcases ht : p.pyGet "type" with _ | vt <;>
          simp [hd, hi, ht]
  · intro hd hi
    have hd' := Option.isSome_iff_ne_none.mp hd
    have hi' := Option.isSome_iff_ne_none.mp hi
    unfold Net.validatePostPararmsForUpdate
    rw [if_neg (fun h => hd' (Option.isNone_iff_eq_none.mp h))]
    rw [if_neg (fun h => hi' (Option.isNone_iff_eq_none.mp h))]

/-- Witness for C2 at concrete inputs: all three hypothesis-bearing
parts applied. -/
theorem C2_validate_update_witness :
    (Net.validatePostPararmsForUpdate
        [("descriptor_id", JValue.str "1"), ("indicator", JValue.str "x"),
         ("type", JValue.str "t")]).1 =
      some "Indicator must not be specified for update." :=
  (C2_validate_update
      [("descriptor_id", JValue.str "1"), ("indicator", JValue.str "x"),
       ("type", JValue.str "t")]).2.2 rfl rfl

/-! ### Claim C6 — the submit validator -/

/-- C6: `validatePostPararmsForSubmit p` returns the descriptor-id
error whenever a non-null `descriptor_id` is present; otherwise it
returns the single message listing, in the source's fixed field order,
every one of the six required fields that is null or absent; and it
returns null iff `descriptor_id` is absent and all six are present. -/
theorem C6_validate_submit (p : Dict) :
    ((p.pyGet "descriptor_id").isSome = true →
      (Net.validatePostPararmsForSubmit p).1 =
        some "descriptor_id must not be specified for submit.")
    ∧ (p.pyGet "descriptor_id" = none →
      (Net.validatePostPararmsForSubmit p).1 =
        Net.specSubmitMissingMessage
          (Net.submitRequiredFields.filter fun f => (p.pyGet f).isNone))
    ∧ ((Net.validatePostPararmsForSubmit p).1 = none ↔
      p.pyGet "descriptor_id" = none ∧
      ∀ f ∈ Net.submitRequiredFields, p.pyGet f ≠ none) := by
  refine ⟨?_, Net.validateSubmit_eq_missing_message p, ?_⟩
  · intro hd
    unfold Net.validatePostPararmsForSubmit
    rw [if_pos hd]
  · constructor
    · intro h
      rcases hd : p.pyGet "descriptor_id" with _ | vd
      · have hm := Net.validateSubmit_eq_missing_message p hd
        rw [hm] at h
        have := (Net.specSubmitMissingMessage_eq_none _).mp h
        refine ⟨rfl, ?_⟩
        intro f hf hnone
        have : f ∈ Net.submitRequiredFields.filter
            fun f => (p.pyGet f).isNone := by
          simp [List.mem_filter, hf, hnone]
        simp [‹Net.submitRequiredFields.filter _ = []›] at this
      · exfalso
        have : (Net.validatePostPararmsForSubmit p).1 =
            some "descriptor_id must not be specified for submit." := by
          unfold Net.validatePostPararmsForSubmit
          rw [if_pos (by simp [hd])]
        rw [this] at h
        exact Option.noConfusion h
    · rintro ⟨hd, hall⟩
      rw [Net.validateSubmit_eq_missing_message p hd]
      rw [Net.specSubmitMissingMessage_eq_none]
      rw [List.filter_eq_nil_iff]
      intro f hf
      simp [Option.isNone_iff_eq_none, hall f hf]

/-- Witness for C6 at concrete inputs: the descriptor-id branch and the
missing-fields branch applied. -/
theorem C6_validate_submit_witness :
    (Net.validatePostPararmsForSubmit
        [("descriptor_id", JValue.str "123"),
         ("indicator", JValue.str "x")]).1 =
      some "descriptor_id must not be specified for submit."
    ∧ (Net.validatePostPararmsForSubmit
        [("indicator", JValue.str "x")]).1 =
      Net.specSubmitMissingMessage
        (Net.submitRequiredFields.filter fun f =>
          (Dict.pyGet [("indicator", JValue.str "x")] f).isNone) :=
  ⟨(C6_validate_submit
      [("descriptor_id", JValue.str "123"),
       ("indicator", JValue.str "x")]).1 rfl,
   (C6_validate_submit [("indicator", JValue.str "x")]).2.1 rfl⟩

/-! ### Claim C9 — description normalization -/

/-- C9: a null or absent description is set to the empty string, and
the description normalization is idempotent. -/
theorem C9_description_idempotent (d : Dict) :
    Net.normalizeDescription (Net.normalizeDescription d) =
      Net.normalizeDescription d
    ∧ ((d.pyGet "description").isNone = true →
      (Net.normalizeDescription d).plookup "description" =
        some (JValue.str "")) := by
  constructor
  · by_cases h : (d.pyGet "description").isNone
    · have h2 : Net.normalizeDescription d =
          d.insert "description" (JValue.str "") := by
        unfold Net.normalizeDescription
        rw [if_pos h]
      rw [h2]
      unfold Net.normalizeDescription
      rw [if_neg (by simp [Dict.pyGet_insert_str])]
    · have h2 : Net.normalizeDescription d = d := by
        unfold Net.normalizeDescription
        rw [if_neg h]
      rw [h2, h2]
  · intro h
    unfold Net.normalizeDescription
    rw [if_pos h]
    exact Dict.plookup_insert_self d "description" (JValue.str "")

/-- Witness for C9: a record with no description normalizes to the
empty string, idempotently. -/
theorem C9_description_idempotent_witness :
    Net.normalizeDescription (Net.normalizeDescription ([] : Dict)) =
      Net.normalizeDescription ([] : Dict)
    ∧ (Net.normalizeDescription ([] : Dict)).plookup "description" =
        some (JValue.str "") :=
  ⟨(C9_description_idempotent ([] : Dict)).1,
   (C9_description_idempotent ([] : Dict)).2 rfl⟩

/-! ### Claim C3 — mutation result shape -/

/-- C3: for `submitThreatDescriptor` and `updateThreatDescriptor`, a
validation failure yields exactly `(validationError, null, null)` with
no POST issued, and a null response body implies the call failed
validation before any network call or was a declared dry run. -/
theorem C3_mutation_result (net : Net.PostOutcome) (p : Dict)
    (dryRun : Bool) :
    (∀ err, (Net.validatePostPararmsForSubmit p).1 = some err →
      Net.submitThreatDescriptor net p dryRun = (⟨some err, none, none⟩, 0))
    ∧ (∀ err, (Net.validatePostPararmsForUpdate p).1 = some err →
      Net.updateThreatDescriptor net p dryRun = (⟨some err, none, none⟩, 0))
    ∧ ((Net.submitThreatDescriptor net p dryRun).1.responseBody = none →
      (Net.validatePostPararmsForSubmit p).1 ≠ none ∨ dryRun = true)
    ∧ ((Net.updateThreatDescriptor net p dryRun).1.responseBody = none →
      (Net.validatePostPararmsForUpdate p).1 ≠ none ∨ dryRun = true) := by
  refine ⟨?_, ?_, ?_, ?_⟩
  · intro err h
    unfold Net.submitThreatDescriptor
    rw [h]
  · intro err h
    unfold Net.updateThreatDescriptor
    rw [h]
  · intro h
    unfold Net.submitThreatDescriptor at h
    rcases hv : (Net.validatePostPararmsForSubmit p).1 with _ | err
    · rw [hv] at h
      unfold Net._postThreatDescriptor at h
      rcases hd : dryRun
      · right
        rw [hd] at h
        simp at h
        cases net <;> simp_all
      · exact Or.inr rfl
    · exact Or.inl (by simp [hv])
  · intro h
    unfold Net.updateThreatDescriptor at h
    rcases hv : (Net.validatePostPararmsForUpdate p).1 with _ | err
    · rw [hv] at h
      unfold Net._postThreatDescriptor at h
      rcases hd : dryRun
      · right
        rw [hd] at h
        simp at h
        cases net <;> simp_all
      · exact Or.inr rfl
    · exact Or.inl (by simp [hv])

/-- Witness for C3: a submit with an empty field map fails validation
and returns the triple with no POST. -/
theorem C3_mutation_result_witness :
    Net.submitThreatDescriptor
        (Net.PostOutcome.success JValue.null) ([] : Dict) false =
      (⟨some ("Missing fields " ++
          String.intercalate ","
            ["indicator", "type", "description", "share_level", "status",
             "privacy_type"]), none, none⟩, 0) :=
  (C3_mutation_result (Net.PostOutcome.success JValue.null) ([] : Dict)
      false).1 _ rfl

/-! ### Claim C4 — bounded retry on reads -/

/-- C4: a 5xx response causes the identical request to be retried with
at most 5 total attempts after which the last error is raised (five
consecutive 503s fail after the fifth attempt with no sixth request); a
retried 5xx followed by success returns the success on the second
attempt; any error status outside `[500, 600)` is raised immediately
with no retry. -/
theorem C4_get_retry (server : Nat → Net.GetAttempt) :
    ((∀ i, i < 5 → server i = Except.error 503) →
      Net.getJSONFromURL server = (Except.error 503, 5))
    ∧ (∀ code, code < 500 ∨ 600 ≤ code → server 0 = Except.error code →
      Net.getJSONFromURL server = (Except.error code, 1))
    ∧ (∀ code v, 500 ≤ code → code < 600 → server 0 = Except.error code →
      server 1 = Except.ok v →
      Net.getJSONFromURL server = (Except.ok v, 2)) := by
  refine ⟨?_, ?_, ?_⟩
  · intro h
    have h0 := h 0 (by norm_num)
    have h1 := h 1 (by norm_num)
    have h2 := h 2 (by norm_num)
    have h3 := h 3 (by norm_num)
    have h4 := h 4 (by norm_num)
    unfold Net.getJSONFromURL
    rw [Net.getJSONFromURLLoop, h0]
    norm_num
    rw [Net.getJSONFromURLLoop, h1]
    norm_num
    rw [Net.getJSONFromURLLoop, h2]
    norm_num
    rw [Net.getJSONFromURLLoop, h3]
    norm_num
    rw [Net.getJSONFromURLLoop, h4]
    norm_num
  · intro code hc h0
    unfold Net.getJSONFromURL
    rw [Net.getJSONFromURLLoop, h0]
    simp [if_pos hc]
  · intro code v h5 h6 h0 h1
    have hcond : ¬(code < 500 ∨ 600 ≤ code) := by omega
    unfold Net.getJSONFromURL
    rw [Net.getJSONFromURLLoop, h0]
    dsimp only
    rw [if_neg hcond, if_neg (by norm_num : ¬(4 < 0 + 1))]
    norm_num
    rw [Net.getJSONFromURLLoop, h1]

/-- Witness for C4: an all-503 server fails with 503 after 5 attempts;
a one-shot 404 server fails immediately; a 502-then-success server
succeeds on the second attempt. -/
theorem C4_get_retry_witness :
    Net.getJSONFromURL (fun _ => Except.error 503) =
      (Except.error 503, 5)
    ∧ Net.getJSONFromURL (fun _ => Except.error 404) =
      (Except.error 404, 1)
    ∧ Net.getJSONFromURL
        (fun i => if i = 0 then Except.error 502 else Except.ok JValue.null) =
      (Except.ok JValue.null, 2) :=
  ⟨(C4_get_retry (fun _ => Except.error 503)).1 (fun i _ => rfl),
   (C4_get_retry (fun _ => Except.error 404)).2.1 404 (by norm_num) rfl,
   (C4_get_retry (fun i => if i = 0 then Except.error 502
       else Except.ok JValue.null)).2.2 502 JValue.null (by norm_num)
     (by norm_num) rfl rfl⟩

/-! ### Claim C5 — pagination -/

namespace Net

/-- The id-collection of one page is the order-preserving list of ids
of exactly the items whose declared type is `THREAT_DESCRIPTOR`. -/
theorem pageIDs_eq_filter_map (data : List TaggedObject) :
    pageIDs data =
      (data.filter fun it => it.itemType == THREAT_DESCRIPTOR).map
        TaggedObject.id := by
  induction data with
  | nil => rfl
  | cons item rest ih =>
    by_cases h : item.itemType = THREAT_DESCRIPTOR <;>
      simp [pageIDs, h, ih]

/-- Over a chain of responses in which exactly the last lacks
`paging.next`, the paginator performs one callback per response, in
order. -/
theorem process_chain : ∀ (pages : List TagQueryPage), pages ≠ [] →
    (∀ i (hi : i < pages.length),
      pages[i].hasNext = decide (i + 1 < pages.length)) →
    processDescriptorIDsByTagID pages =
      pages.map fun page => pageIDs page.data
  | [], hne, _ => absurd rfl hne
  | [page], _, hlink => by
    have h0 := hlink 0 (by norm_num)
    norm_num at h0
    simp [processDescriptorIDsByTagID, h0]
  | page :: q :: t, _, hlink => by
    have h0 := hlink 0 (by simp)
    have h0' : page.hasNext = true := by simpa using h0
    have hrec := process_chain (q :: t) (by simp) (fun i hi => by
      have h := hlink (i + 1) (by simpa using Nat.succ_lt_succ hi)
      simpa using h)
    show pageIDs page.data ::
        (if page.hasNext then processDescriptorIDsByTagID (q :: t)
         else []) = _
    rw [h0', if_pos rfl, hrec]
    rfl

/-- C5: for a chain of N responses linked by `paging.next` in which
exactly the last lacks the pointer, the paginator invokes the callback
exactly N times, in page order, each time with the order-preserving
ids of exactly that page's `THREAT_DESCRIPTOR`-typed items; and a
response without `paging.next` ends the loop after exactly one
callback invocation no matter what the server could have served
next. -/
theorem C5_pagination (pages : List TagQueryPage) (hne : pages ≠ [])
    (hlink : ∀ i (hi : i < pages.length),
      pages[i].hasNext = decide (i + 1 < pages.length)) :
    processDescriptorIDsByTagID pages =
      pages.map (fun page => pageIDs page.data)
    ∧ (processDescriptorIDsByTagID pages).length = pages.length
    ∧ (∀ data, pageIDs data =
        (data.filter fun it => it.itemType == THREAT_DESCRIPTOR).map
          TaggedObject.id)
    ∧ (∀ (page : TagQueryPage) (rest : List TagQueryPage),
        page.hasNext = false →
        processDescriptorIDsByTagID (page :: rest) =
          [pageIDs page.data]) := by
  refine ⟨process_chain pages hne hlink, ?_, pageIDs_eq_filter_map, ?_⟩
  · rw [process_chain pages hne hlink, List.length_map]
  · intro page rest h
    simp [processDescriptorIDsByTagID, h]

/-- Witness for C5 on a concrete two-page chain with a mixed-type
first page. -/
theorem C5_pagination_witness :
    processDescriptorIDsByTagID
        [⟨[⟨"1", "THREAT_DESCRIPTOR", "n1"⟩,
           ⟨"2", "MALWARE_ANALYSIS", "n2"⟩], true⟩,
         ⟨[⟨"3", "THREAT_DESCRIPTOR", "n3"⟩], false⟩] =
      [["1"], ["3"]] := by
  have h := C5_pagination
      [⟨[⟨"1", "THREAT_DESCRIPTOR", "n1"⟩,
         ⟨"2", "MALWARE_ANALYSIS", "n2"⟩], true⟩,
       ⟨[⟨"3", "THREAT_DESCRIPTOR", "n3"⟩], false⟩]
      (by simp)
      (fun i hi => by
        match i with
        | 0 => rfl
        | 1 => rfl
        | n + 2 => simp at hi)
  rw [h.1]
  rfl

/-! ### Claim C7 — tags normalization -/

/-- C7: whenever the tags extraction succeeds (as it does on every
well-formed response), the normalized record stores under `tags` a
non-null array that is the ascending sort of the tag texts, and a null
or absent raw `tags` field yields the empty list. -/
theorem C7_tags_normalized (d : Dict) (texts : List String)
    (h : rawTagTexts d = some texts) :
    (normalizeTags d).map (fun nd => nd.plookup "tags") =
      some (some (JValue.arr ((sortStrings texts).map JValue.str)))
    ∧ (sortStrings texts).Sorted (· ≤ ·)
    ∧ List.Perm (sortStrings texts) texts
    ∧ ((d.plookup "tags" = none ∨ d.plookup "tags" = some JValue.null) →
        texts = []) := by
  refine ⟨?_, ?_, ?_, ?_⟩
  · unfold normalizeTags
    rw [h]
    simp [Dict.plookup_insert_self]
  · exact List.sorted_insertionSort _ _
  · exact List.perm_insertionSort _ _
  · rintro (ht | ht) <;>
    · unfold rawTagTexts at h
      rw [ht] at h
      exact (Option.some.inj h).symm

/-- Witness for C7 on a concrete wrapped two-tag record. -/
theorem C7_tags_normalized_witness :
    (normalizeTags
        [("tags", JValue.obj [("data", JValue.arr
          [JValue.obj [("text", JValue.str "b")],
           JValue.obj [("text", JValue.str "a")]])])]).map
        (fun nd => nd.plookup "tags") =
      some (some (JValue.arr ((sortStrings ["b", "a"]).map JValue.str))) :=
  (C7_tags_normalized
      [("tags", JValue.obj [("data", JValue.arr
        [JValue.obj [("text", JValue.str "b")],
         JValue.obj [("text", JValue.str "a")]])])]
      ["b", "a"] rfl).1

/-! ### Claim C1 — the copy payload -/

/-- The raw source descriptor of the spec's copy scenario:
`{raw_indicator:"abc", reactions:{...}, tags:null}`. -/
def c1RawSource : Dict :=
  [("raw_indicator", JValue.str "abc"),
   ("reactions", JValue.obj [("100", JValue.str "HELPFUL")]),
   ("tags", JValue.null)]

/-- The caller-supplied field map of the spec's copy scenario:
`descriptor_id`, `description:"d"`, and the privacy fields copy
validation requires. -/
def c1PostParams : Dict :=
  [("descriptor_id", JValue.str "9999"),
   ("description", JValue.str "d"),
   ("privacy_type", JValue.str "HAS_WHITELIST"),
   ("privacy_members", JValue.str "100")]

set_option maxHeartbeats 1000000 in
/-- C1 counterexample: in the claim's scenario the payload handed to
`submitThreatDescriptor` DOES contain a `tags` key — bound to the empty
array — because the fetch through `getInfoForIDs` rewrites the null
`tags` to a sorted (empty) list before `copyThreatDescriptor`'s
null-tags drop is consulted, and `tags` is a recognized post-parameter
name. -/
theorem C1_copy_counterexample :
    (copyThreatDescriptor c1RawSource c1PostParams).payloadToSubmit.map
        (fun payload => payload.plookup "tags") =
      some (some (JValue.arr [])) := rfl

set_option maxHeartbeats 1000000 in
/-- C1 amended: in the claim's scenario — any reactions value, any
non-null descriptor id and privacy values — the payload passed to
`submitThreatDescriptor` contains `indicator:"abc"`, contains no
`reactions` key, contains a `tags` key bound to the empty list (the
fetch normalizer replaces the null `tags` before the copy-time
null-tags drop runs), and contains `description:"d"` (the caller's
override wins over the copied empty description). -/
theorem C1_copy_amended (reactions : JValue) (did pv pm : String) :
    (copyThreatDescriptor
        [("raw_indicator", JValue.str "abc"), ("reactions", reactions),
         ("tags", JValue.null)]
        [("descriptor_id", JValue.str did),
         ("description", JValue.str "d"),
         ("privacy_type", JValue.str pv),
         ("privacy_members", JValue.str pm)]).payloadToSubmit.map
        (fun payload =>
          (payload.plookup "indicator",
           (payload.plookup "reactions").isSome,
           payload.plookup "tags",
           payload.plookup "description")) =
      some (some (JValue.str "abc"), false, some (JValue.arr []),
        some (JValue.str "d")) := rfl

/-! ### Claim C10 — in-place deletion and read-only validators -/

/-- C10: for a field map with well-formed (unique) keys that passes
copy validation, `copyThreatDescriptor` deletes `descriptor_id` from
the caller's map in place before fetching, so the caller's map
afterwards no longer contains `descriptor_id`; and the three validators
return their input map unmodified. -/
theorem C10_copy_frame (rawSource p : Dict) (hnd : p.keys.Nodup)
    (hv : (validatePostPararmsForCopy p).1 = none) :
    (copyThreatDescriptor rawSource p).callerMap = p.erase "descriptor_id"
    ∧ (copyThreatDescriptor rawSource p).callerMap.plookup
        "descriptor_id" = none
    ∧ (validatePostPararmsForSubmit p).2 = p
    ∧ (validatePostPararmsForUpdate p).2 = p
    ∧ (validatePostPararmsForCopy p).2 = p := by
  have hcaller : (copyThreatDescriptor rawSource p).callerMap =
      p.erase "descriptor_id" := by
    unfold copyThreatDescriptor
    rw [hv]
    dsimp only
    split
    · rfl
    · split <;> rfl
  refine ⟨hcaller, ?_, validateSubmit_preserves p,
    validateUpdate_preserves p, validateCopy_preserves p⟩
  rw [hcaller]
  exact Dict.plookup_erase_of_nodup p "descriptor_id" hnd

/-- Witness for C10 at a concrete valid copy request. -/
theorem C10_copy_frame_witness :
    (copyThreatDescriptor ([] : Dict)
        [("descriptor_id", JValue.str "1"),
         ("privacy_type", JValue.str "x"),
         ("privacy_members", JValue.str "y")]).callerMap.plookup
      "descriptor_id" = none :=
  (C10_copy_frame ([] : Dict)
      [("descriptor_id", JValue.str "1"),
       ("privacy_type", JValue.str "x"),
       ("privacy_members", JValue.str "y")]
      (by decide) rfl).2.1

/-! ### Claim C8 — time-expression parsing -/

/-- C8: the base-10 integer interpretation is attempted first, so any
string it accepts resolves to exactly that integer; `"nonesuch"`
resolves to null; and in general the parser returns null exactly when
all three stages — integer, the five datetime formats, the relative
patterns — fail, rather than raising. -/
theorem C8_time_parsing (localTs : DTFields → Int) (nowTs : Int) :
    (∀ s n, _parseIntStringToEpochSeconds s = some n →
      parseTimeStringToEpochSeconds localTs nowTs s = some n)
    ∧ parseTimeStringToEpochSeconds localTs nowTs "nonesuch" = none
    ∧ (∀ s, parseTimeStringToEpochSeconds localTs nowTs s = none ↔
        (_parseIntStringToEpochSeconds s = none ∧
         _parseDateTimeStringToEpochSeconds localTs s = none ∧
         _parseRelativeStringToEpochSeconds nowTs s = none)) := by
  refine ⟨?_, rfl, ?_⟩
  · intro s n h
    unfold parseTimeStringToEpochSeconds
    rw [h]
  · intro s
    unfold parseTimeStringToEpochSeconds
    rcases h1 : _parseIntStringToEpochSeconds s with _ | r1 <;>
      rcases h2 : _parseDateTimeStringToEpochSeconds localTs s with
        _ | r2 <;>
      simp [h1, h2]

/-- Witness for C8: the epoch-seconds string from the spec's examples
resolves via the integer stage, and `"nonesuch"` is unresolved. -/
theorem C8_time_parsing_witness :
    parseTimeStringToEpochSeconds (fun _ => 0) 0 "1591626448" =
      some 1591626448
    ∧ parseTimeStringToEpochSeconds (fun _ => 0) 0 "nonesuch" = none :=
  ⟨(C8_time_parsing (fun _ => 0) 0).1 "1591626448" 1591626448 rfl,
   (C8_time_parsing (fun _ => 0) 0).2.1⟩

end Net

end TE
